import Mathlib

/-!
Shallow embedding of the podcast-catalog browser (src/functions.js and the
Modal class) together with theorems checking the specification's claims.

Modelling conventions:
- DOM elements are modelled by the inductive `El` (tag, className, innerHTML
  content, attributes, children, and the single kind of event listener the
  code installs: a click handler that opens the modal with an item and a
  variant string).
- JavaScript `undefined` for optional item fields is modelled with `Option`.
  Sites that coerce `undefined` to text (template literals, `setAttribute`)
  map `none` to the string "undefined", as JavaScript does.
- `Number(s)` / `isNaN` and `new Date(s).getTime()` are platform primitives;
  they are passed in as abstract functions `String → Option Int` where `none`
  models NaN / an invalid date. `toLocaleDateString` is likewise an abstract
  formatting function.
- Timestamps and `Date` arithmetic are in integer milliseconds; the
  whole-day difference `Math.floor((now - date) / 86400000)` is `Int.fdiv`
  (floor division), which agrees with `Math.floor` of the exact quotient.
-/

namespace DJS01

/-- A JavaScript id value as it appears in a genre's `shows` list: the data
mixes numeric and string representations, compared with `Array.includes`
(SameValueZero), so a number and a string are never equal. -/
inductive JSVal where
  | num (n : Int)
  | str (s : String)
deriving DecidableEq

/-- A podcast or genre data object. JavaScript objects are duck-typed; the
code reads whichever fields the current variant needs, so one record holds
the union of fields. Optional fields (`image`, `seasons`, `updated`,
`shows`) use `Option`, with `none` for a missing/`undefined` field. -/
structure Item where
  id : Int
  title : String
  description : String
  image : Option String
  seasons : Option Int
  updated : Option String
  genres : List Int
  shows : Option (List JSVal)
deriving DecidableEq

/-- A constructed DOM element: tag name, className, innerHTML content,
attribute list, children in order, and the click listener the code may bind
(`() => openModal(item, type)`), recorded as the `(item, type)` it would
open. -/
inductive El where
  | mk (tag className content : String) (attrs : List (String × String))
       (children : List El) (clickOpens : Option (Item × String))

def El.tag : El → String
  | .mk t _ _ _ _ _ => t

def El.className : El → String
  | .mk _ c _ _ _ _ => c

def El.content : El → String
  | .mk _ _ c _ _ _ => c

def El.attrs : El → List (String × String)
  | .mk _ _ _ a _ _ => a

def El.children : El → List El
  | .mk _ _ _ _ c _ => c

def El.clickOpens : El → Option (Item × String)
  | .mk _ _ _ _ _ e => e

/-- Options bag for `createElement`: className, content, attrs, children,
events. The only event handler the code ever passes is a click handler that
opens the modal, recorded as `clickOpens`. -/
structure ElOpts where
  className : Option String
  content : Option String
  attrs : List (String × String)
  children : List El
  clickOpens : Option (Item × String)

/-- Embeds `createElement(tag, options)`: builds the element, applies
className and innerHTML when provided (the JS falsy check `if
(options.className)` conflates a missing option with the empty string, and
so does `Option.getD ""` here), sets the attributes, appends the children in
order and binds the listeners. -/
def createElement (tag : String) (options : ElOpts) : El :=
  .mk tag (options.className.getD "") (options.content.getD "")
    options.attrs options.children options.clickOpens

/-- Interpolation of a possibly-`undefined` string field into an attribute
value or template literal: JavaScript renders `undefined` as the text
"undefined". -/
def jsStrOrUndefined : Option String → String
  | none => "undefined"
  | some s => s

/-- Interpolation of a possibly-`undefined` numeric field into a template
literal: JavaScript renders `undefined` as the text "undefined". -/
def jsIntOrUndefined : Option Int → String
  | none => "undefined"
  | some n => toString n

/-- Embeds `formatDate(isoString)` from src/functions.js. `parseDate` models
`new Date(isoString).getTime()` with `none` for an invalid date (and a
missing `isoString` also gives an invalid date), `toLoc` models
`date.toLocaleDateString('en-US', {short month})`, and `now` is the current
time in ms. When the date is invalid the diff is NaN, every comparison
(`=== 0`, `=== 1`, `<= 30`) is false, and `toLocaleDateString` returns
"Invalid Date", so the result is "Updated on Invalid Date". Note the third
branch of the source is `if (diff <= 30)`, an upper bound only. -/
def formatDate (parseDate : String → Option Int) (toLoc : Int → String)
    (now : Int) (isoString : Option String) : String :=
  match isoString.bind parseDate with
  | none => "Updated on Invalid Date"
  | some date =>
    let diff := (now - date).fdiv 86400000
    if diff = 0 then "Updated today"
    else if diff = 1 then "Updated yesterday"
    else if diff ≤ 30 then "Updated " ++ toString diff ++ " days ago"
    else "Updated on " ++ toLoc date

/-- Embeds `createTags(genreIds)`. `genreMap` is the id→title lookup object
built from the genre collection; JavaScript object keys are strings, so it
is modelled as `String → Option String` and `genreMap[id]` reads the key
`toString id`. A missing entry falls back to `Genre <id>`. -/
def createTags (genreMap : String → Option String) (genreIds : List Int) : El :=
  createElement "div" ⟨some "tags", none, [], genreIds.map (fun id =>
    createElement "span"
      ⟨some "tag", some ((genreMap (toString id)).getD ("Genre " ++ toString id)),
       [], [], none⟩), none⟩

/-- Embeds `createCard(item, type)`. The podcast variant builds cover,
title, meta, tags and updated children in order and binds a click opening
the modal with `(item, 'podcast')`; the genre variant builds title and
description and binds a click opening `(item, 'genre')`. -/
def createCard (parseDate : String → Option Int) (toLoc : Int → String)
    (now : Int) (genreMap : String → Option String)
    (item : Item) (ty : String) : El :=
  if ty = "podcast" then
    let cover := createElement "div" ⟨some "cover", none, [],
      [createElement "img"
        ⟨none, none,
         [("src", jsStrOrUndefined item.image), ("alt", item.title ++ " Cover")],
         [], none⟩], none⟩
    let title := createElement "h3" ⟨none, some item.title, [], [], none⟩
    let meta := createElement "p"
      ⟨some "meta", some ("📅 " ++ jsIntOrUndefined item.seasons ++ " seasons"),
       [], [], none⟩
    let tags := createTags genreMap item.genres
    let updated := createElement "p"
      ⟨some "updated", some (formatDate parseDate toLoc now item.updated),
       [], [], none⟩
    createElement "div"
      ⟨some "card", none, [], [cover, title, meta, tags, updated],
       some (item, "podcast")⟩
  else
    let title := createElement "h3" ⟨none, some item.title, [], [], none⟩
    let desc := createElement "p" ⟨none, some item.description, [], [], none⟩
    createElement "div"
      ⟨some "card genre-card", none, [], [title, desc], some (item, "genre")⟩

/-- Embeds `renderItems(items, type)`. The grid's previous children are the
`grid` argument; `grid.innerHTML = ''` discards them, then either a single
"No items found." paragraph or one card per item is appended. The function
returns the grid's final child list. -/
def renderItems (parseDate : String → Option Int) (toLoc : Int → String)
    (now : Int) (genreMap : String → Option String)
    (grid : List El) (items : List Item) (ty : String) : List El :=
  let grid := ([] : List El)
  if items.length = 0 then
    grid ++ [createElement "p" ⟨none, some "No items found.", [], [], none⟩]
  else
    grid ++ items.map (fun item => createCard parseDate toLoc now genreMap item ty)

/-- Embeds `filterByGenre(items, genreId)`. `jsNumber` models
`Number(genreId)` combined with the `isNaN` check: `none` is the NaN case.
A valid parse filters by `item.genres.includes(id)`. -/
def filterByGenre (jsNumber : String → Option Int) (items : List Item)
    (genreId : String) : List Item :=
  if genreId = "all" then items
  else
    match jsNumber genreId with
    | none => items
    | some id => items.filter (fun item => item.genres.contains id)

/-- The image placed in the modal cover region by `_setCover`: src and alt
("<title> Cover"). `none` models a cleared cover region. -/
structure CoverImg where
  src : String
  alt : String
deriving DecidableEq

/-- One clickable show entry rendered by `_setShowsForGenre`: the show's
title text and the arguments of the bound click handler
`() => this.open(show, false)`. -/
structure ShowEntry where
  title : String
  openArgs : Item × Bool
deriving DecidableEq

/-- Content of the shows-list container built by `_setShowsForGenre`:
either the literal "No shows available for this genre." message or the list
of show entries. -/
inductive ShowsContent where
  | noShows
  | entries (l : List ShowEntry)
deriving DecidableEq

/-- Content of the `modalSeasons` region: cleared, the literal
"Seasons: N" text set by `_setSeasons`, or the shows-list container
appended by `_setShowsForGenre`. -/
inductive SeasonsArea where
  | empty
  | seasonsText (text : String)
  | showsList (c : ShowsContent)
deriving DecidableEq

/-- The modal's displayed state: the overlay's `hidden` class and the
content of each region the Modal class writes (cover, title, description,
genre tags, updated text, seasons/shows area, section label). -/
structure ModalState where
  hidden : Bool
  cover : Option CoverImg
  title : String
  desc : String
  genreTags : List String
  updated : String
  seasons : SeasonsArea
  sectionTitle : String
deriving DecidableEq

namespace Modal

/-- Embeds `Modal.close()`: `this.modal.classList.add('hidden')`. Adding a
class that is already present changes nothing. -/
def close (s : ModalState) : ModalState :=
  { s with hidden := true }

/-- Embeds `_setCover(imageUrl, title)`: clears the region, then appends an
img only when `imageUrl` is truthy (`undefined` and `''` are both falsy). -/
def setCover (s : ModalState) (imageUrl : Option String) (title : String) :
    ModalState :=
  { s with cover :=
      match imageUrl with
      | none => none
      | some u => if u = "" then none else some ⟨u, title ++ " Cover"⟩ }

/-- Embeds `_setTitle(title)`: `textContent = title || ''`. With `''`
standing for a missing title the `||` fallback is the identity here. -/
def setTitle (s : ModalState) (title : String) : ModalState :=
  { s with title := title }

/-- Embeds `_setDescription(description)`. -/
def setDescription (s : ModalState) (description : String) : ModalState :=
  { s with desc := description }

/-- Embeds `_setUpdated(updated)`: a falsy timestamp (`undefined` or `''`)
clears the text; otherwise the text is the emoji-prefixed long form built
from `new Date(updated).toLocaleDateString('en-US', {long month})`, which
`toLocLong` models. -/
def setUpdated (toLocLong : String → String) (s : ModalState)
    (updated : Option String) : ModalState :=
  { s with updated :=
      match updated with
      | none => ""
      | some u => if u = "" then "" else "📅 Last updated: " ++ toLocLong u }

/-- Embeds `_setGenres(genreIds)`: one tag per id. The source reads
`genreMap[String(id)] || genreMap[Number(id)]`; object property access
stringifies its key, so for the integer ids in play both reads use the key
`toString id`, and the fallback is `Genre <id>`. -/
def setGenres (genreMap : String → Option String) (s : ModalState)
    (genreIds : List Int) : ModalState :=
  { s with genreTags := genreIds.map (fun id =>
      (((genreMap (toString id)).orElse
        (fun _ => genreMap (toString id))).getD ("Genre " ++ toString id))) }

/-- Embeds `_setSeasons(seasons)`: clears the region, then writes
`Seasons: N` only when `seasons` is truthy (`undefined` and `0` are both
falsy). -/
def setSeasons (s : ModalState) (seasons : Option Int) : ModalState :=
  { s with seasons :=
      match seasons with
      | none => .empty
      | some n =>
        if n = 0 then .empty else .seasonsText ("Seasons: " ++ toString n) }

/-- The predicate of `_setShowsForGenre`'s filter:
`genre.shows?.includes(p.id) || genre.shows?.includes(String(p.id))`. A
missing `shows` list gives `undefined || undefined`, i.e. false; otherwise
the podcast id is matched tolerantly against both its numeric and its
string form. -/
def showsMatch (shows : Option (List JSVal)) (id : Int) : Bool :=
  match shows with
  | none => false
  | some l => l.contains (.num id) || l.contains (.str (toString id))

/-- Embeds `_setShowsForGenre(genre)`: clears the region, filters the
podcast collection by `showsMatch` (preserving collection order), and
appends a shows-list container holding either the "No shows available for
this genre." message or one clickable entry per matched show whose click
handler is `() => this.open(show, false)`. -/
def setShowsForGenre (podcasts : List Item) (s : ModalState) (genre : Item) :
    ModalState :=
  let shows := podcasts.filter (fun p => showsMatch genre.shows p.id)
  { s with seasons := .showsList (
      if shows.length = 0 then .noShows
      else .entries (shows.map (fun sh => ⟨sh.title, (sh, false)⟩))) }

/-- Embeds `_setSectionTitle(title)` (the section-title element exists per
the markup contract). -/
def setSectionTitle (s : ModalState) (title : String) : ModalState :=
  { s with sectionTitle := title }

/-- Embeds `_openGenre(genre)`: clears the cover, sets title, description,
the genre's own single tag, clears the updated text, renders the shows for
the genre, and unhides the overlay. -/
def openGenre (genreMap : String → Option String) (podcasts : List Item)
    (toLocLong : String → String) (s : ModalState) (genre : Item) :
    ModalState :=
  let s := setCover s (some "") ""
  let s := setTitle s genre.title
  let s := setDescription s genre.description
  let s := setGenres genreMap s [genre.id]
  let s := setUpdated toLocLong s (some "")
  let s := setShowsForGenre podcasts s genre
  { s with hidden := false }

/-- Embeds `_openPodcast(podcast)`: sets cover, title, description, updated
text, genre tags and season count, and unhides the overlay. -/
def openPodcast (genreMap : String → Option String)
    (toLocLong : String → String) (s : ModalState) (podcast : Item) :
    ModalState :=
  let s := setCover s podcast.image podcast.title
  let s := setTitle s podcast.title
  let s := setDescription s podcast.description
  let s := setUpdated toLocLong s podcast.updated
  let s := setGenres genreMap s podcast.genres
  let s := setSeasons s podcast.seasons
  { s with hidden := false }

/-- Embeds `Modal.open(data, isGenre)`: clears the seasons/shows region,
sets the section label to "Shows" or "Seasons", then fills every region via
`_openGenre` or `_openPodcast`. -/
def «open» (genreMap : String → Option String) (podcasts : List Item)
    (toLocLong : String → String) (s : ModalState) (data : Item)
    (isGenre : Bool) : ModalState :=
  let s := { s with seasons := .empty }
  let s := setSectionTitle s (if isGenre then "Shows" else "Seasons")
  if isGenre then openGenre genreMap podcasts toLocLong s data
  else openPodcast genreMap toLocLong s data

end Modal

/-! Concrete fixtures used by witnesses and counterexamples. -/

/-- Fixture date parser: "epoch" parses to 0 ms, "future" to one day past
the epoch, anything else is an invalid date. -/
def fxParse : String → Option Int := fun s =>
  if s = "epoch" then some 0 else if s = "future" then some 86400000 else none

/-- Fixture locale formatter for the list form. -/
def fxLoc : Int → String := fun _ => "Jan 1, 1970"

/-- Fixture genre map with no entries. -/
def fxMap : String → Option String := fun _ => none

/-- Fixture numeric-token parser: only "1" is a valid number. -/
def fxNum : String → Option Int := fun s =>
  if s = "1" then some (1 : Int) else none

/-- Fixture parser on which every token is NaN. -/
def fxNaN : String → Option Int := fun _ => none

/-- Fixture item carrying genre id 1. -/
def itemG1 : Item := ⟨1, "A", "dA", none, none, none, [1], none⟩

/-- Fixture item carrying genre id 2. -/
def itemG2 : Item := ⟨2, "B", "dB", none, none, none, [2], none⟩

/-- Fixture item with all optional fields (image, seasons, updated)
missing. -/
def bareItem : Item := ⟨9, "T", "D", none, none, none, [], none⟩

/-- Fixture podcast with id 3. -/
def pod3 : Item := ⟨3, "Pod Three", "d3", some "img3", some 2, some "2022-01-01", [1], none⟩

/-- Fixture podcast with id 5. -/
def pod5 : Item := ⟨5, "Pod Five", "d5", some "img5", some 4, some "2022-02-02", [1], none⟩

/-- Fixture podcast with id 7. -/
def pod7 : Item := ⟨7, "Pod Seven", "d7", some "img7", some 1, some "2022-03-03", [2], none⟩

/-- Fixture podcast collection with ids 3, 5, 7. -/
def pods357 : List Item := [pod3, pod5, pod7]

/-- Fixture genre whose shows list mixes a numeric id 3 and a string id
"5". -/
def genreB : Item := ⟨1, "Genre B", "gd", none, none, none, [], some [.num 3, .str "5"]⟩

/-- Fixture initial modal state (closed, everything blank). -/
def st0 : ModalState := ⟨true, none, "", "", [], "", .empty, ""⟩

/-- Fixture long-form locale formatter. -/
def toLocNov : String → String := fun _ => "November 3, 2022"

/-- Fixture long-form locale formatter used where the formatted text is not
inspected. -/
def fxLocStr : String → String := fun s => s

/-! Theorems. -/

/-- Helper: `formatDate` on a timestamp that parses to `d` reduces to the
branch cascade over the whole-day difference. -/
theorem formatDate_parsed (parseDate : String → Option Int)
    (toLoc : Int → String) (now : Int) (s : String) (d : Int)
    (hp : parseDate s = some d) :
    formatDate parseDate toLoc now (some s) =
      (if (now - d).fdiv 86400000 = 0 then "Updated today"
       else if (now - d).fdiv 86400000 = 1 then "Updated yesterday"
       else if (now - d).fdiv 86400000 ≤ 30 then
         "Updated " ++ toString ((now - d).fdiv 86400000) ++ " days ago"
       else "Updated on " ++ toLoc d) := by
  simp [formatDate, hp]

/-- C2: a filter token that is not the sentinel "all" and does not parse as
a number (`Number` gives NaN) leaves the item list unchanged — same
elements, same order, no error and no empty result. -/
theorem filterByGenre_invalid_token_noop (jsNumber : String → Option Int)
    (items : List Item) (t : String) (hall : t ≠ "all")
    (hnan : jsNumber t = none) :
    filterByGenre jsNumber items t = items := by
  simp [filterByGenre, hall, hnan]

/-- Witness for C2 at the concrete token "bogus". -/
theorem filterByGenre_invalid_token_noop_witness :
    filterByGenre fxNaN [itemG1, itemG2] "bogus" = [itemG1, itemG2] :=
  filterByGenre_invalid_token_noop fxNaN [itemG1, itemG2] "bogus" (by decide) rfl

/-- C3: for a token that parses to the genre id `gid`, the filter is sound
(every result element lists `gid`), complete (every input element listing
`gid` is kept), and order preserving (the result is a sublist of the
input). -/
theorem filterByGenre_sound_complete_ordered (jsNumber : String → Option Int)
    (items : List Item) (g : String) (gid : Int) (hall : g ≠ "all")
    (hp : jsNumber g = some gid) :
    (∀ x ∈ filterByGenre jsNumber items g, gid ∈ x.genres) ∧
    (∀ x ∈ items, gid ∈ x.genres → x ∈ filterByGenre jsNumber items g) ∧
    List.Sublist (filterByGenre jsNumber items g) items := by
  have hdef : filterByGenre jsNumber items g =
      items.filter (fun item => item.genres.contains gid) := by
    simp [filterByGenre, hall, hp]
  rw [hdef]
  refine ⟨?_, ?_, List.filter_sublist items⟩
  · intro x hx
    have hm := List.mem_filter.mp hx
    simpa using hm.2
  · intro x hx hg
    exact List.mem_filter.mpr ⟨hx, by simpa using hg⟩

/-- Witness for C3 at the concrete token "1" over a two-item list. -/
theorem filterByGenre_sound_complete_ordered_witness :
    (∀ x ∈ filterByGenre fxNum [itemG1, itemG2] "1", (1 : Int) ∈ x.genres) ∧
    (∀ x ∈ [itemG1, itemG2], (1 : Int) ∈ x.genres →
      x ∈ filterByGenre fxNum [itemG1, itemG2] "1") ∧
    List.Sublist (filterByGenre fxNum [itemG1, itemG2] "1") [itemG1, itemG2] :=
  filterByGenre_sound_complete_ordered fxNum [itemG1, itemG2] "1" 1
    (by decide) (by decide)

/-- C1 counterexample: for the timestamp one day in the future (now = 0,
date = 86400000 ms) the whole-day difference is -1, which satisfies the
source's `diff <= 30` test, so `formatDate` returns "Updated -1 days ago"
and NOT the absolute-date form "Updated on <...>" the claim predicts. -/
theorem formatDate_future_not_absolute_cex :
    formatDate fxParse fxLoc 0 (some "future") = "Updated -1 days ago" ∧
    formatDate fxParse fxLoc 0 (some "future") ≠ "Updated on " ++ fxLoc 86400000 := by
  exact ⟨by decide, by decide⟩

/-- C1 amended: every timestamp strictly later than now (negative
whole-day difference) matches the `diff <= 30` branch, so `formatDate`
returns "Updated <negative N> days ago" rather than the absolute-date
form. -/
theorem formatDate_future_relative_branch (parseDate : String → Option Int)
    (toLoc : Int → String) (now : Int) (s : String) (d : Int)
    (hp : parseDate s = some d) (hneg : (now - d).fdiv 86400000 < 0) :
    formatDate parseDate toLoc now (some s) =
      "Updated " ++ toString ((now - d).fdiv 86400000) ++ " days ago" := by
  rw [formatDate_parsed parseDate toLoc now s d hp]
  generalize hk : (now - d).fdiv 86400000 = k at hneg ⊢
  rw [if_neg (by omega), if_neg (by omega), if_pos (by omega)]

/-- Witness for the amended C1 at the concrete future timestamp. -/
theorem formatDate_future_relative_branch_witness :
    formatDate fxParse fxLoc 0 (some "future") =
      "Updated " ++ toString ((0 - 86400000 : Int).fdiv 86400000) ++ " days ago" :=
  formatDate_future_relative_branch fxParse fxLoc 0 "future" 86400000
    (by decide) (by decide)

/-- C4: the list formatter's branch rules over the whole-day difference:
0 gives "Updated today", 1 gives "Updated yesterday", a difference in
[2,30] gives "Updated N days ago" with N the difference, and any larger
difference gives the absolute-date form "Updated on <locale date>". -/
theorem formatDate_branch_rules (parseDate : String → Option Int)
    (toLoc : Int → String) (now : Int) (s : String) (d : Int)
    (hp : parseDate s = some d) :
    ((now - d).fdiv 86400000 = 0 →
      formatDate parseDate toLoc now (some s) = "Updated today") ∧
    ((now - d).fdiv 86400000 = 1 →
      formatDate parseDate toLoc now (some s) = "Updated yesterday") ∧
    (2 ≤ (now - d).fdiv 86400000 → (now - d).fdiv 86400000 ≤ 30 →
      formatDate parseDate toLoc now (some s) =
        "Updated " ++ toString ((now - d).fdiv 86400000) ++ " days ago") ∧
    (30 < (now - d).fdiv 86400000 →
      formatDate parseDate toLoc now (some s) = "Updated on " ++ toLoc d) := by
  rw [formatDate_parsed parseDate toLoc now s d hp]
  generalize (now - d).fdiv 86400000 = k
  refine ⟨?_, ?_, ?_, ?_⟩
  · intro h
    rw [if_pos h]
  · intro h
    rw [if_neg (by omega), if_pos h]
  · intro h2 h30
    rw [if_neg (by omega), if_neg (by omega), if_pos h30]
  · intro h
    rw [if_neg (by omega), if_neg (by omega), if_neg (by omega)]

/-- Witness for C4 at concrete timestamps 0, 1, 15 and 60 whole days
before now. -/
theorem formatDate_branch_rules_witness :
    formatDate fxParse fxLoc 0 (some "epoch") = "Updated today" ∧
    formatDate fxParse fxLoc 86400000 (some "epoch") = "Updated yesterday" ∧
    formatDate fxParse fxLoc 1296000000 (some "epoch") = "Updated 15 days ago" ∧
    formatDate fxParse fxLoc 5184000000 (some "epoch") = "Updated on Jan 1, 1970" :=
  ⟨(formatDate_branch_rules fxParse fxLoc 0 "epoch" 0 (by decide)).1 (by decide),
   (formatDate_branch_rules fxParse fxLoc 86400000 "epoch" 0 (by decide)).2.1 (by decide),
   (formatDate_branch_rules fxParse fxLoc 1296000000 "epoch" 0 (by decide)).2.2.1
     (by decide) (by decide),
   (formatDate_branch_rules fxParse fxLoc 5184000000 "epoch" 0 (by decide)).2.2.2
     (by decide)⟩

/-- C5: `renderItems` discards the grid's previous children (the result does
not depend on them); an empty item list renders exactly the single
"No items found." paragraph; a non-empty item list renders exactly one card
per item, in input order, with no placeholder. -/
theorem renderItems_spec (parseDate : String → Option Int)
    (toLoc : Int → String) (now : Int) (genreMap : String → Option String)
    (grid grid2 : List El) (items : List Item) (ty : String) :
    (renderItems parseDate toLoc now genreMap grid items ty =
      renderItems parseDate toLoc now genreMap grid2 items ty) ∧
    (renderItems parseDate toLoc now genreMap grid [] ty =
      [El.mk "p" "" "No items found." [] [] none]) ∧
    (items ≠ [] →
      renderItems parseDate toLoc now genreMap grid items ty =
        items.map (fun item => createCard parseDate toLoc now genreMap item ty) ∧
      (renderItems parseDate toLoc now genreMap grid items ty).length =
        items.length) := by
  refine ⟨rfl, rfl, ?_⟩
  intro h
  have hlen : items.length ≠ 0 := by simpa using h
  constructor
  · simp [renderItems, hlen]
  · simp [renderItems, hlen]

/-- Witness for C5's non-empty clause at a one-item list. -/
theorem renderItems_spec_witness :
    renderItems fxParse fxLoc 0 fxMap [] [itemG1] "podcast" =
      [createCard fxParse fxLoc 0 fxMap itemG1 "podcast"] ∧
    (renderItems fxParse fxLoc 0 fxMap [] [itemG1] "podcast").length = 1 :=
  (renderItems_spec fxParse fxLoc 0 fxMap [] [] [itemG1] "podcast").2.2
    (by decide)

/-- C9 counterexample: for an item missing image, seasons and updated,
`createCard` does build the card (it is total), but the missing fields do
NOT degrade to an empty or omitted visual element: the meta line reads
"📅 undefined seasons", the updated line reads "Updated on Invalid Date",
and the cover img's src attribute is the literal text "undefined" — each a
present element with non-empty placeholder text. -/
theorem createCard_missing_fields_cex :
    ((createCard fxParse fxLoc 0 fxMap bareItem "podcast").children.map
      El.content)[2]? = some "📅 undefined seasons" ∧
    ((createCard fxParse fxLoc 0 fxMap bareItem "podcast").children.map
      El.content)[4]? = some "Updated on Invalid Date" ∧
    ((createCard fxParse fxLoc 0 fxMap bareItem "podcast").children.map
      (fun c => c.children.map El.attrs))[0]? =
      some [[("src", "undefined"), ("alt", "T Cover")]] ∧
    ("📅 undefined seasons" : String) ≠ "" ∧
    ("Updated on Invalid Date" : String) ≠ "" := by
  exact ⟨rfl, rfl, rfl, by decide, by decide⟩

/-- C9 amended: `createCard` is total on items with any optional fields
missing (the embedding needs no error monad), and the card always has its
five children; a missing image yields an img whose src attribute is the
text "undefined", a missing seasons count yields the meta text
"📅 undefined seasons", and a missing updated timestamp yields the text
"Updated on Invalid Date" — present placeholder text, not empty/omitted
elements. -/
theorem createCard_missing_fields_degrade (parseDate : String → Option Int)
    (toLoc : Int → String) (now : Int) (genreMap : String → Option String)
    (it : Item) :
    (createCard parseDate toLoc now genreMap it "podcast").children.length = 5 ∧
    (it.image = none →
      ((createCard parseDate toLoc now genreMap it "podcast").children.map
        (fun c => c.children.map El.attrs))[0]? =
        some [[("src", "undefined"), ("alt", it.title ++ " Cover")]]) ∧
    (it.seasons = none →
      ((createCard parseDate toLoc now genreMap it "podcast").children.map
        El.content)[2]? = some "📅 undefined seasons") ∧
    (it.updated = none →
      ((createCard parseDate toLoc now genreMap it "podcast").children.map
        El.content)[4]? = some "Updated on Invalid Date") := by
  refine ⟨by simp [createCard, createElement, El.children], ?_, ?_, ?_⟩
  · intro h
    simp [createCard, createElement, El.children, El.attrs, jsStrOrUndefined, h]
  · intro h
    simp [createCard, createElement, El.children, El.content, jsIntOrUndefined, h]
  · intro h
    simp [createCard, createElement, El.children, El.content, formatDate, h]

/-- Witness for the amended C9 at the all-optional-fields-missing item. -/
theorem createCard_missing_fields_degrade_witness :
    (createCard fxParse fxLoc 0 fxMap bareItem "podcast").children.length = 5 ∧
    ((createCard fxParse fxLoc 0 fxMap bareItem "podcast").children.map
      (fun c => c.children.map El.attrs))[0]? =
      some [[("src", "undefined"), ("alt", bareItem.title ++ " Cover")]] ∧
    ((createCard fxParse fxLoc 0 fxMap bareItem "podcast").children.map
      El.content)[2]? = some "📅 undefined seasons" ∧
    ((createCard fxParse fxLoc 0 fxMap bareItem "podcast").children.map
      El.content)[4]? = some "Updated on Invalid Date" :=
  ⟨(createCard_missing_fields_degrade fxParse fxLoc 0 fxMap bareItem).1,
   (createCard_missing_fields_degrade fxParse fxLoc 0 fxMap bareItem).2.1 rfl,
   (createCard_missing_fields_degrade fxParse fxLoc 0 fxMap bareItem).2.2.1 rfl,
   (createCard_missing_fields_degrade fxParse fxLoc 0 fxMap bareItem).2.2.2 rfl⟩

/-- C6: `Modal.open` fully overwrites every displayed region, so the state
after `open` is a function of the item and the variant alone — two runs
from arbitrary prior states (open or closed, any residual content) agree —
and the modal ends up in the open (not hidden) state. -/
theorem modal_open_overwrites_all (genreMap : String → Option String)
    (podcasts : List Item) (toLocLong : String → String)
    (s1 s2 : ModalState) (data : Item) (isGenre : Bool) :
    Modal.«open» genreMap podcasts toLocLong s1 data isGenre =
      Modal.«open» genreMap podcasts toLocLong s2 data isGenre ∧
    (Modal.«open» genreMap podcasts toLocLong s1 data isGenre).hidden = false := by
  cases isGenre <;> exact ⟨rfl, rfl⟩

/-- C7: opening the genre view for a genre with shows `[3, "5"]` over the
podcast collection with ids 3, 5, 7 renders exactly the two entries for
ids 3 and 5, in podcast-collection order; each entry's bound click handler
re-invokes `open` with that podcast and `isGenre = false` (the `openArgs`
field records the handler's arguments), and the section label is
"Shows". -/
theorem modal_genre_shows_scenario :
    (Modal.«open» fxMap pods357 fxLocStr st0 genreB true).seasons =
      .showsList (.entries
        [⟨pod3.title, (pod3, false)⟩, ⟨pod5.title, (pod5, false)⟩]) ∧
    (Modal.«open» fxMap pods357 fxLocStr st0 genreB true).sectionTitle =
      "Shows" := by
  exact ⟨by decide, rfl⟩

/-- C8 counterexample: for a non-empty timestamp the modal formatter's text
is "📅 Last updated: <long date>" — the emoji-prefixed form — and not the
exact string "Last updated: <long date>" the claim states. -/
theorem modal_updated_exact_form_cex :
    (Modal.setUpdated toLocNov st0 (some "2022-11-03")).updated =
      "📅 Last updated: November 3, 2022" ∧
    (Modal.setUpdated toLocNov st0 (some "2022-11-03")).updated ≠
      "Last updated: " ++ toLocNov "2022-11-03" := by
  exact ⟨by decide, by decide⟩

/-- C8 amended: the modal formatter writes the empty string for an
empty/absent timestamp, and for every non-empty timestamp writes exactly
"📅 Last updated: <long-form locale date>" — always the long form, with no
relative-day branch. -/
theorem modal_updated_formats (toLocLong : String → String) (s : ModalState)
    (u : Option String) :
    ((u = none ∨ u = some "") → (Modal.setUpdated toLocLong s u).updated = "") ∧
    (∀ v, u = some v → v ≠ "" →
      (Modal.setUpdated toLocLong s u).updated =
        "📅 Last updated: " ++ toLocLong v) := by
  constructor
  · rintro (rfl | rfl) <;> rfl
  · rintro v rfl hv
    simp [Modal.setUpdated, hv]

/-- Witness for the amended C8 at an absent and at a non-empty timestamp. -/
theorem modal_updated_formats_witness :
    (Modal.setUpdated toLocNov st0 none).updated = "" ∧
    (Modal.setUpdated toLocNov st0 (some "2022-11-03")).updated =
      "📅 Last updated: " ++ toLocNov "2022-11-03" :=
  ⟨(modal_updated_formats toLocNov st0 none).1 (Or.inl rfl),
   (modal_updated_formats toLocNov st0 (some "2022-11-03")).2 "2022-11-03"
     rfl (by decide)⟩

/-- C10: `Modal.close` only adds the hidden class: every content region
(cover, title, description, genre tags, updated text, seasons/shows area,
section label) is left unchanged, and close is idempotent on the whole
modal state. -/
theorem modal_close_frame (s : ModalState) :
    (Modal.close s).hidden = true ∧
    (Modal.close s).cover = s.cover ∧
    (Modal.close s).title = s.title ∧
    (Modal.close s).desc = s.desc ∧
    (Modal.close s).genreTags = s.genreTags ∧
    (Modal.close s).updated = s.updated ∧
    (Modal.close s).seasons = s.seasons ∧
    (Modal.close s).sectionTitle = s.sectionTitle ∧
    Modal.close (Modal.close s) = Modal.close s :=
  ⟨rfl, rfl, rfl, rfl, rfl, rfl, rfl, rfl, rfl⟩

end DJS01
